import Mathlib

/-!
Shallow embedding of `packages/vite-plugin-checker/src/logger.ts`: the
diagnostic normalization and projection pipeline (canonical diagnostics,
level filtering, terminal and runtime projections, the three source
normalizers, and the summary composer), together with theorems checking the
specified properties against these definitions.

Modelling conventions:
- JavaScript strings are `String`, numbers are `Int`, `undefined` is `none`.
- `os.EOL` is the POSIX line separator.
- The external `chalk` dependency is modelled as wrapping text in ANSI
  control sequences; the external `strip-ansi` dependency as a scanner that
  removes ESC-introduced control sequences.
- The external `@babel/code-frame` renderer (`codeFrameColumns`) is passed
  to the functions that use it as an explicit function parameter.
-/

/-- The ASCII escape character, which starts every ANSI color control sequence. -/
def escChar : Char := Char.ofNat 27

/-- Line separator; models `os.EOL` on a POSIX host. -/
def osEOL : String := "\n"

/-- One ANSI control sequence as emitted by the chalk library: ESC, bracket, code, m. -/
def ansiSeq (code : String) : String := String.mk [escChar] ++ "[" ++ code ++ "m"

/-- Models one chalk style: opening control sequence, styled text, closing sequence. -/
def chalkWrap (openCode closeCode s : String) : String :=
  ansiSeq openCode ++ s ++ ansiSeq closeCode

/-- Models the chalk chain `chalk.bold.rgb(0, 0, 0).bgX` used for the terminal labels. -/
def boldBlackBg (bgOpen bgClose s : String) : String :=
  chalkWrap "1" "22" (chalkWrap "38;2;0;0;0" "39" (chalkWrap bgOpen bgClose s))

/-- Models chalk indexed by a color name, as in `chalk[color]` of `composeCheckerSummary`. -/
def chalkByName (color s : String) : String :=
  if color = "red" then chalkWrap "31" "39" s
  else if color = "yellow" then chalkWrap "33" "39" s
  else if color = "green" then chalkWrap "32" "39" s
  else s

/-- Scanner state for the ANSI stripper: plain text, just saw ESC, or inside a
control sequence introduced by ESC and an opening bracket. -/
inductive AnsiState
  | normal
  | sawEsc
  | inCsi
deriving DecidableEq

/-- Models the external strip-ansi dependency: removes ESC-introduced control
sequences (the form chalk emits), keeping all other characters. -/
def stripAnsiAux : AnsiState → List Char → List Char
  | _, [] => []
  | .normal, c :: rest =>
    if c = escChar then stripAnsiAux .sawEsc rest else c :: stripAnsiAux .normal rest
  | .sawEsc, c :: rest =>
    if c = '[' then stripAnsiAux .inCsi rest else stripAnsiAux .normal rest
  | .inCsi, c :: rest =>
    if 64 ≤ c.toNat ∧ c.toNat ≤ 126 then stripAnsiAux .normal rest
    else stripAnsiAux .inCsi rest

/-- Models `strip(s)` from the strip-ansi package. -/
def stripAnsi (s : String) : String := String.mk (stripAnsiAux .normal s.data)

/-- JavaScript string coercion of a possibly-undefined string, as happens in
string concatenation: `undefined` prints as the text "undefined". -/
def jsString : Option String → String
  | none => "undefined"
  | some s => s

/-- JavaScript string coercion of a possibly-undefined number. -/
def jsStringInt : Option Int → String
  | none => "undefined"
  | some n => toString n

/-- JavaScript string coercion of a possibly-null string: `null` prints as "null". -/
def jsStringNullable : Option String → String
  | none => "null"
  | some s => s

/-- Truthiness of a possibly-undefined string, as used by `filter(Boolean)`:
`undefined` and the empty string are falsy. -/
def jsTruthy : Option String → Bool
  | none => false
  | some s => s != ""

/-- The guarded strip used by the normalizers, `codeFrame && strip(codeFrame)`:
`undefined` stays `undefined`, the (falsy) empty string is returned as is,
any other string is stripped. -/
def jsAndStrip : Option String → Option String
  | none => none
  | some s => some (if s = "" then s else stripAnsi s)

/-- One endpoint of a babel `SourceLocation`; the column may be absent. -/
structure LineCol where
  line : Int
  column : Option Int
deriving DecidableEq

/-- The babel code-frame `SourceLocation`: 1-based start and end endpoints.
The source field named `end` is spelled `end_` here. -/
structure SourceLocation where
  start : LineCol
  end_ : LineCol
deriving DecidableEq

/-- Modelled from the spec: the four-valued Level Taxonomy (`DiagnosticLevel`
in `types.ts`, which is not under `src/`). It is a numeric enum whose
ordinals follow the type-checker category numbering that the spec records as
mapping category 0 to the Warning-equivalent under the direct numeric cast of
`normalizeTsDiagnostic`: Warning 0, Error 1, Suggestion 2, Message 3. -/
def DiagnosticLevel.Warning : Int := 0

/-- Modelled from the spec: see `DiagnosticLevel.Warning`. -/
def DiagnosticLevel.Error : Int := 1

/-- Modelled from the spec: see `DiagnosticLevel.Warning`. -/
def DiagnosticLevel.Suggestion : Int := 2

/-- Modelled from the spec: see `DiagnosticLevel.Warning`. -/
def DiagnosticLevel.Message : Int := 3

/-- The Canonical Diagnostic record (`NormalizedDiagnostic` in `logger.ts`).
Optional fields are `Option`; `level` is the numeric enum value, or `none`
when the record is not yet classified. -/
structure NormalizedDiagnostic where
  message : Option String
  conclusion : Option String
  stack : Option (String ⊕ List String)
  id : Option String
  checker : String
  codeFrame : Option String
  stripedCodeFrame : Option String
  loc : Option SourceLocation
  level : Option Int
deriving DecidableEq

/-- The default allowed-level list of `filterLogLevel`. -/
def defaultLogLevel : List Int :=
  [DiagnosticLevel.Warning, DiagnosticLevel.Error,
   DiagnosticLevel.Suggestion, DiagnosticLevel.Message]

/-- The single-record overload of `filterLogLevel`: `if (!diagnostics.level)
return null` (so an undefined level, and also the numeric value 0, which is
falsy, yield null), then membership in the allowed list decides. -/
def filterLogLevelSingle (diagnostics : NormalizedDiagnostic) (level : List Int) :
    Option NormalizedDiagnostic :=
  match diagnostics.level with
  | none => none
  | some n => if n = 0 then none else if level.contains n then some diagnostics else none

/-- The array overload of `filterLogLevel`: keeps records whose level is a
number (`typeof d.level !== 'number'` excludes undefined) contained in the
allowed list, preserving order. -/
def filterLogLevelArray (diagnostics : List NormalizedDiagnostic) (level : List Int) :
    List NormalizedDiagnostic :=
  diagnostics.filter (fun d =>
    match d.level with
    | none => false
    | some n => level.contains n)

/-- `diagnosticToTerminalLog`: builds the four parts (severity label plus
message; file label, id and position; code frame; conclusion), drops the
falsy ones with `filter(Boolean)`, and joins the rest with `os.EOL`.
Undefined values reaching a string concatenation coerce to "undefined". -/
def diagnosticToTerminalLog (d : NormalizedDiagnostic) (name : Option String) : String :=
  let nameInLabel := match name with | some n => "(" ++ n ++ ")" | none => ""
  let labelMap : Int → Option String := fun lv =>
    if lv = DiagnosticLevel.Error then
      some (boldBlackBg "101" "49" (" ERROR" ++ nameInLabel ++ " "))
    else if lv = DiagnosticLevel.Warning then
      some (boldBlackBg "103" "49" (" WARNING" ++ nameInLabel ++ " "))
    else if lv = DiagnosticLevel.Suggestion then
      some (boldBlackBg "104" "49" (" SUGGESTION" ++ nameInLabel ++ " "))
    else if lv = DiagnosticLevel.Message then
      some (boldBlackBg "106" "49" (" MESSAGE" ++ nameInLabel ++ " "))
    else none
  let levelLabel := labelMap (d.level.getD DiagnosticLevel.Error)
  let fileLabel := boldBlackBg "106" "49" " FILE " ++ " "
  let position :=
    match d.loc with
    | some l =>
      chalkWrap "33" "39" (toString l.start.line) ++ ":"
        ++ chalkWrap "33" "39" (jsStringInt l.start.column)
    | none => ""
  let parts : List (Option String) :=
    [some (jsString levelLabel ++ " " ++ jsString d.message),
     some (fileLabel ++ jsString d.id ++ ":" ++ position ++ osEOL),
     some (jsString d.codeFrame ++ osEOL),
     d.conclusion]
  String.intercalate osEOL ((parts.filter jsTruthy).map (fun o => o.getD ""))

/-- Modelled from the spec: the flattened location of the Runtime Payload
Entity (`DiagnosticToRuntime['loc']` in `types.ts`, which is not under
`src/`): file, line, and a column defaulting to 0 when not numeric. -/
structure RuntimeLoc where
  file : Option String
  line : Int
  column : Int
deriving DecidableEq

/-- Modelled from the spec: the Runtime Payload Entity (`DiagnosticToRuntime`
in `types.ts`, which is not under `src/`): message, stack flattened to one
string, id, frame, checkerId, level, and the flattened location. -/
structure DiagnosticToRuntime where
  message : String
  stack : String
  id : Option String
  frame : Option String
  checkerId : String
  level : Option Int
  loc : Option RuntimeLoc
deriving DecidableEq

/-- The per-record body of `diagnosticToRuntimeError`: the map callback over
the diagnostics array (the single-record overload returns the first mapped
element, which is exactly this record). -/
def diagnosticToRuntimeErrorSingle (d : NormalizedDiagnostic) : DiagnosticToRuntime :=
  { message := d.message.getD ""
    stack :=
      match d.stack with
      | none => ""
      | some (.inl s) => s
      | some (.inr l) => String.intercalate osEOL l
    id := d.id
    frame := d.stripedCodeFrame
    checkerId := d.checker
    level := d.level
    loc := d.loc.map (fun l =>
      { file := d.id
        line := l.start.line
        column := match l.start.column with | some c => c | none => 0 }) }

/-- The array overload of `diagnosticToRuntimeError`: maps every record. -/
def diagnosticToRuntimeErrorArray (diagnostics : List NormalizedDiagnostic) :
    List DiagnosticToRuntime :=
  diagnostics.map diagnosticToRuntimeErrorSingle

/-- The external `codeFrameColumns` renderer of the babel code-frame package,
passed in as a function parameter: full source text and a location give the
rendered excerpt. -/
abbrev CodeFrameFn := String → SourceLocation → String

/-- `createFrame`: renders the excerpt, indents every line by two spaces, and
joins with `os.EOL`. -/
def createFrame (codeFrameColumns : CodeFrameFn) (source : String)
    (location : SourceLocation) : String :=
  String.intercalate osEOL
    (((codeFrameColumns source location).splitOn "\n").map (fun line => "  " ++ line))

/-- A 0-based line and character pair, as produced by the type-checker API. -/
structure LineAndCharacter where
  line : Int
  character : Int
deriving DecidableEq

/-- The start and end record handed to `tsLocationToBabelLocation`.
The source field named `end` is spelled `end_` here. -/
structure TsRange where
  start : LineAndCharacter
  end_ : LineAndCharacter
deriving DecidableEq

/-- `tsLocationToBabelLocation`: adds one to every line and character of both
endpoints, independently. -/
def tsLocationToBabelLocation (tsLoc : TsRange) : SourceLocation :=
  { start := { line := tsLoc.start.line + 1, column := some (tsLoc.start.character + 1) }
    end_ := { line := tsLoc.end_.line + 1, column := some (tsLoc.end_.character + 1) } }

/-- `wrapCheckerSummary`: prefixes the raw summary with the checker name in brackets. -/
def wrapCheckerSummary (checkerName rawSummary : String) : String :=
  "[" ++ checkerName ++ "] " ++ rawSummary

/-- `composeCheckerSummary`: builds the found-errors-and-warnings message with
a plural s exactly when a count exceeds one, wraps it with the checker name,
and colors it red, yellow, or green by severity. -/
def composeCheckerSummary (checkerName : String) (errorCount warningCount : Int) : String :=
  let message := "Found " ++ toString errorCount ++ " error"
    ++ (if errorCount > 1 then "s" else "") ++ " and " ++ toString warningCount
    ++ " warning" ++ (if warningCount > 1 then "s" else "")
  let color := if errorCount > 0 then "red" else if warningCount > 0 then "yellow" else "green"
  chalkByName color (wrapCheckerSummary checkerName message)

/-- The part of a type-checker `SourceFile` object that the normalizer reads:
file name, full text, and the position-to-line-and-character conversion
(an external method of the typescript package, kept as a function field). -/
structure TsSourceFile where
  fileName : String
  text : String
  getLineAndCharacterOfPosition : Int → LineAndCharacter

/-- The raw type-checker diagnostic as read by `normalizeTsDiagnostic`. The
external `flattenDiagnosticMessageText` helper is modelled by taking
`messageText` as the already-flattened message string. -/
structure TsDiagnostic where
  file : Option TsSourceFile
  start : Option Int
  length : Option Int
  messageText : String
  category : Int

/-- `normalizeTsDiagnostic`: computes a location only when the file, start,
and length are all present, renders the frame only when a location exists,
and casts the numeric category directly to the level. -/
def normalizeTsDiagnostic (codeFrameColumns : CodeFrameFn) (d : TsDiagnostic) :
    NormalizedDiagnostic :=
  let fileName := d.file.map TsSourceFile.fileName
  let message := d.messageText
  let loc : Option SourceLocation :=
    match d.file, d.start, d.length with
    | some f, some s, some len =>
      some (tsLocationToBabelLocation
        { start := f.getLineAndCharacterOfPosition s
          end_ := f.getLineAndCharacterOfPosition (s + len) })
    | _, _, _ => none
  let codeFrame : Option String :=
    match d.file, loc with
    | some f, some l => some (createFrame codeFrameColumns f.text l)
    | _, _ => none
  { message := some message
    conclusion := some ""
    stack := none
    id := fileName
    checker := "TypeScript"
    codeFrame := codeFrame
    stripedCodeFrame := jsAndStrip codeFrame
    loc := loc
    level := some d.category }

/-- A 0-based protocol position. -/
structure LspPosition where
  line : Int
  character : Int
deriving DecidableEq

/-- A protocol range. The source field named `end` is spelled `end_` here. -/
structure LspRange where
  start : LspPosition
  end_ : LspPosition
deriving DecidableEq

/-- The raw protocol diagnostic as read by `normalizeLspDiagnostic`. -/
structure LspDiagnostic where
  range : LspRange
  severity : Option Int
  message : String
deriving DecidableEq

/-- `lspRange2Location`: adds one to every line and character of both
endpoints, independently. -/
def lspRange2Location (range : LspRange) : SourceLocation :=
  { start := { line := range.start.line + 1, column := some (range.start.character + 1) }
    end_ := { line := range.end_.line + 1, column := some (range.end_.character + 1) } }

/-- `normalizeLspDiagnostic`: maps protocol severity 1, 2, 3, 4 to Error,
Warning, Message, Suggestion, keeping the initial Error for an absent or
unrecognized severity; converts the range; renders the frame unconditionally
(without the indentation of `createFrame`); trims the message. -/
def normalizeLspDiagnostic (codeFrameColumns : CodeFrameFn) (diagnostic : LspDiagnostic)
    (absFilePath fileText : String) : NormalizedDiagnostic :=
  let loc := lspRange2Location diagnostic.range
  let codeFrame := codeFrameColumns fileText loc
  let level : Int :=
    match diagnostic.severity with
    | some sv =>
      if sv = 1 then DiagnosticLevel.Error
      else if sv = 2 then DiagnosticLevel.Warning
      else if sv = 3 then DiagnosticLevel.Message
      else if sv = 4 then DiagnosticLevel.Suggestion
      else DiagnosticLevel.Error
    | none => DiagnosticLevel.Error
  { message := some diagnostic.message.trim
    conclusion := some ""
    stack := none
    id := some absFilePath
    checker := "VLS"
    codeFrame := some codeFrame
    stripedCodeFrame := some (if codeFrame = "" then codeFrame else stripAnsi codeFrame)
    loc := some loc
    level := some level }

/-- One raw lint message of a lint result: `ruleId` may be null, `endLine`
and `endColumn` may be absent. -/
structure LintMessage where
  ruleId : Option String
  severity : Int
  message : String
  line : Int
  column : Int
  endLine : Option Int
  endColumn : Option Int
deriving DecidableEq

/-- One raw lint result: one file, its captured source text, many messages. -/
structure LintResult where
  filePath : String
  messages : List LintMessage
  source : Option String
deriving DecidableEq

/-- The body of the map callback inside `normalizeEslintDiagnostic`: severity
0 returns null, severity 1 gives Warning, severity 2 gives Error (any other
value keeps the initial Error); the location takes the raw start fields and
`d.endLine || 0` (undefined and 0 both give 0) for the end line; the rule id
is appended to the message in parentheses. -/
def normalizeEslintMessage (codeFrameColumns : CodeFrameFn) (source : Option String)
    (filePath : String) (d : LintMessage) : Option NormalizedDiagnostic :=
  if d.severity = 0 then none
  else
    let level : Int :=
      if d.severity = 1 then DiagnosticLevel.Warning
      else if d.severity = 2 then DiagnosticLevel.Error
      else DiagnosticLevel.Error
    let loc : SourceLocation :=
      { start := { line := d.line, column := some d.column }
        end_ := { line := d.endLine.getD 0, column := d.endColumn } }
    let codeFrame := createFrame codeFrameColumns (source.getD "") loc
    some
      { message := some (d.message ++ " (" ++ jsStringNullable d.ruleId ++ ")")
        conclusion := some ""
        stack := none
        id := some filePath
        checker := "ESLint"
        codeFrame := some codeFrame
        stripedCodeFrame := some (if codeFrame = "" then codeFrame else stripAnsi codeFrame)
        loc := some loc
        level := some level }

/-- `normalizeEslintDiagnostic`: maps every message and keeps the non-null
results (`filter(isNormalizedDiagnostic)`), preserving order. -/
def normalizeEslintDiagnostic (codeFrameColumns : CodeFrameFn) (diagnostic : LintResult) :
    List NormalizedDiagnostic :=
  (diagnostic.messages.map
    (normalizeEslintMessage codeFrameColumns diagnostic.source diagnostic.filePath)).filterMap
    (fun x => x)

/-- A trivial concrete code-frame renderer used for concrete evaluations. -/
def cfc0 : CodeFrameFn := fun _ _ => ""

/-- A concrete Warning-level record for evaluating the filter. -/
def warningDiagC1 : NormalizedDiagnostic :=
  { message := some "unused variable"
    conclusion := some ""
    stack := none
    id := some "a.ts"
    checker := "ESLint"
    codeFrame := some "frame"
    stripedCodeFrame := some "frame"
    loc := none
    level := some DiagnosticLevel.Warning }

/-- A concrete record whose stripped frame comes from the guarded strip of a
color-decorated frame. -/
def framedDiagC2 : NormalizedDiagnostic :=
  { message := some "type error"
    conclusion := some ""
    stack := none
    id := some "b.ts"
    checker := "TypeScript"
    codeFrame := some (chalkWrap "31" "39" "  1 | const x = 0")
    stripedCodeFrame := jsAndStrip (some (chalkWrap "31" "39" "  1 | const x = 0"))
    loc := none
    level := some DiagnosticLevel.Error }

/-- A concrete record with no code frame, for evaluating the terminal report. -/
def noFrameDiagC3 : NormalizedDiagnostic :=
  { message := some "boom"
    conclusion := some ""
    stack := none
    id := some "a.ts"
    checker := "TypeScript"
    codeFrame := none
    stripedCodeFrame := none
    loc := none
    level := some DiagnosticLevel.Error }

/-- A concrete raw type-checker diagnostic whose category 7 is outside the
known four-value mapping. -/
def tsDiagC4 : TsDiagnostic :=
  { file := none
    start := none
    length := none
    messageText := "Unexpected token"
    category := 7 }

/-- A concrete lint message with severity 0. -/
def lintMsgSev0 : LintMessage :=
  { ruleId := some "no-unused-vars", severity := 0, message := "x is unused",
    line := 1, column := 1, endLine := some 1, endColumn := some 2 }

/-- A concrete lint message with severity 1. -/
def lintMsgSev1 : LintMessage :=
  { ruleId := some "eqeqeq", severity := 1, message := "expected strict equality",
    line := 2, column := 3, endLine := some 2, endColumn := some 8 }

/-- A concrete lint message with severity 2. -/
def lintMsgSev2 : LintMessage :=
  { ruleId := some "no-undef", severity := 2, message := "y is not defined",
    line := 4, column := 1, endLine := some 4, endColumn := some 2 }

/-- A concrete lint result holding the three messages above. -/
def lintResC5 : LintResult :=
  { filePath := "f.js"
    messages := [lintMsgSev0, lintMsgSev1, lintMsgSev2]
    source := some "let x = 1" }

/-- A concrete lint message whose endLine is absent. -/
def lintMsgC9 : LintMessage :=
  { ruleId := some "semi", severity := 2, message := "missing semicolon",
    line := 3, column := 5, endLine := none, endColumn := some 9 }

/-- A concrete protocol diagnostic at a fixed range, parameterized by severity. -/
def lspDiagAt (sv : Option Int) : LspDiagnostic :=
  { range := { start := { line := 0, character := 0 }, end_ := { line := 0, character := 1 } }
    severity := sv
    message := " msg " }

/-- A concrete record that is not yet classified. -/
def unclassifiedDiagC10 : NormalizedDiagnostic :=
  { message := some "mystery"
    conclusion := some ""
    stack := none
    id := some "c.ts"
    checker := "TypeScript"
    codeFrame := none
    stripedCodeFrame := none
    loc := none
    level := none }

theorem strData_append (a b : String) : (a ++ b).data = a.data ++ b.data := rfl

theorem stripAnsiAux_no_esc (l : List Char) : ∀ st : AnsiState, escChar ∉ stripAnsiAux st l := by
  induction l with
  | nil => intro st; cases st <;> simp [stripAnsiAux]
  | cons c rest ih =>
    intro st
    cases st with
    | normal =>
      by_cases h : c = escChar
      · simpa [stripAnsiAux, h] using ih .sawEsc
      · simp only [stripAnsiAux, if_neg h, List.mem_cons, not_or]
        exact ⟨fun he => h he.symm, ih .normal⟩
    | sawEsc =>
      by_cases h : c = '['
      · simpa [stripAnsiAux, h] using ih .inCsi
      · simpa [stripAnsiAux, h] using ih .normal
    | inCsi =>
      by_cases h : 64 ≤ c.toNat ∧ c.toNat ≤ 126
      · simpa [stripAnsiAux, h] using ih .normal
      · simpa [stripAnsiAux, h] using ih .inCsi

theorem stripAnsi_no_esc (s : String) : escChar ∉ (stripAnsi s).data :=
  stripAnsiAux_no_esc s.data .normal

theorem chalkByName_contains (color s : String) : s.data <:+: (chalkByName color s).data := by
  have h : ∀ o c : String, s.data <:+: (chalkWrap o c s).data := by
    intro o c
    exact ⟨(ansiSeq o).data, (ansiSeq c).data, by simp [chalkWrap, strData_append]⟩
  unfold chalkByName
  split
  · exact h _ _
  split
  · exact h _ _
  split
  · exact h _ _
  exact ⟨[], [], by simp⟩

theorem frame_no_esc (e : NormalizedDiagnostic)
    (he : e.stripedCodeFrame = jsAndStrip e.codeFrame) :
    ∀ s, (diagnosticToRuntimeErrorSingle e).frame = some s → escChar ∉ s.data := by
  intro s hsome
  have hx : jsAndStrip e.codeFrame = some s := by
    rw [← he]; exact hsome
  cases hc : e.codeFrame with
  | none => rw [hc] at hx; exact absurd hx (by simp [jsAndStrip])
  | some t =>
    rw [hc] at hx
    simp only [jsAndStrip, Option.some.injEq] at hx
    by_cases ht : t = ""
    · rw [if_pos ht] at hx
      rw [← hx, ht]
      simp
    · rw [if_neg ht] at hx
      rw [← hx]
      exact stripAnsi_no_esc t

theorem eslintMessages_aux (codeFrameColumns : CodeFrameFn) (source : Option String)
    (filePath : String) (l : List LintMessage) :
    ((l.map (normalizeEslintMessage codeFrameColumns source filePath)).filterMap
      (fun x => x)).map NormalizedDiagnostic.message
    = (l.filter (fun m => m.severity != 0)).map
        (fun m => some (m.message ++ " (" ++ jsStringNullable m.ruleId ++ ")")) := by
  induction l with
  | nil => rfl
  | cons m rest ih =>
    simp only [List.filterMap_map] at ih
    by_cases h : m.severity = 0
    · simp [normalizeEslintMessage, h, List.filterMap_map, ih]
    · simp [normalizeEslintMessage, h, List.filterMap_map, ih]

/-- C1: the claim says a single record whose assigned level is a member of
the allowed set is returned unchanged. The code rejects a Warning record:
with the Warning level (numeric value 0, falsy in the `!diagnostics.level`
guard) and the default allowed set that contains Warning, the single-record
path returns null, while the array path on the same input keeps the record. -/
theorem filterLogLevel_single_drops_warning :
    defaultLogLevel.contains DiagnosticLevel.Warning = true
    ∧ filterLogLevelSingle warningDiagC1 defaultLogLevel = none
    ∧ filterLogLevelArray [warningDiagC1] defaultLogLevel = [warningDiagC1] :=
  ⟨rfl, rfl, rfl⟩

/-- C2: the runtime projection carries the stripped frame field, never the
decorated one, and whenever the stripped frame was produced by the guarded
strip of the normalizers the projected frame contains no ANSI escape
character; cardinality and order are those of the input, for one record and
for a sequence alike. -/
theorem diagnosticToRuntimeError_frame_stripped (d : NormalizedDiagnostic)
    (ds : List NormalizedDiagnostic)
    (h : d.stripedCodeFrame = jsAndStrip d.codeFrame)
    (hs : ∀ e ∈ ds, e.stripedCodeFrame = jsAndStrip e.codeFrame) :
    (diagnosticToRuntimeErrorSingle d).frame = d.stripedCodeFrame
    ∧ (∀ s, (diagnosticToRuntimeErrorSingle d).frame = some s → escChar ∉ s.data)
    ∧ (diagnosticToRuntimeErrorArray ds).map DiagnosticToRuntime.frame
        = ds.map NormalizedDiagnostic.stripedCodeFrame
    ∧ (∀ r ∈ diagnosticToRuntimeErrorArray ds, ∀ s, r.frame = some s → escChar ∉ s.data) := by
  refine ⟨rfl, frame_no_esc d h, ?_, ?_⟩
  · simp [diagnosticToRuntimeErrorArray, diagnosticToRuntimeErrorSingle]
  · intro r hr s hsome
    rcases List.mem_map.mp hr with ⟨e, he, rfl⟩
    exact frame_no_esc e (hs e he) s hsome

/-- C2 witness: the invariant evaluated on a concrete record whose frame is
color-decorated and whose stripped frame comes from the guarded strip. -/
theorem diagnosticToRuntimeError_frame_stripped_witness :
    (diagnosticToRuntimeErrorSingle framedDiagC2).frame = framedDiagC2.stripedCodeFrame
    ∧ (∀ s, (diagnosticToRuntimeErrorSingle framedDiagC2).frame = some s → escChar ∉ s.data)
    ∧ (diagnosticToRuntimeErrorArray [framedDiagC2]).map DiagnosticToRuntime.frame
        = [framedDiagC2].map NormalizedDiagnostic.stripedCodeFrame
    ∧ (∀ r ∈ diagnosticToRuntimeErrorArray [framedDiagC2],
        ∀ s, r.frame = some s → escChar ∉ s.data) :=
  diagnosticToRuntimeError_frame_stripped framedDiagC2 [framedDiagC2] rfl
    (by intro e he; rw [List.mem_singleton] at he; subst he; rfl)

set_option maxRecDepth 100000

/-- C3: the claim says a part that is empty or absent is omitted entirely
from the join, the undefined code frame being its own example. The code does
not omit it: on a record whose codeFrame is undefined the rendered report
contains the literal text "undefined" followed by the line separator,
because the concatenation with `os.EOL` makes the part truthy. -/
theorem terminalLog_renders_missing_codeFrame :
    noFrameDiagC3.codeFrame = none
    ∧ ("undefined" ++ osEOL).data <:+: (diagnosticToTerminalLog noFrameDiagC3 none).data := by
  refine ⟨rfl, ?_⟩
  decide

/-- C4 counterexample: at the concrete category 7, outside the known
four-value mapping, the normalized level is the raw value 7 and not the
Error default the claim requires. -/
theorem normalizeTs_unmapped_category_not_error :
    (normalizeTsDiagnostic cfc0 tsDiagC4).level = some 7
    ∧ (7 : Int) ∉ defaultLogLevel
    ∧ (normalizeTsDiagnostic cfc0 tsDiagC4).level ≠ some DiagnosticLevel.Error :=
  ⟨rfl, by decide, by decide⟩

/-- C4 amended: the type-checker normalizer assigns as level the raw numeric
category, a direct cast that passes every value through unchanged, with no
Error defaulting for values outside the known mapping. -/
theorem normalizeTs_level_is_raw_category (codeFrameColumns : CodeFrameFn) (d : TsDiagnostic) :
    (normalizeTsDiagnostic codeFrameColumns d).level = some d.category := rfl

/-- C5: severity 0 messages yield no record and nothing fails, severity 1
yields a Warning record, severity 2 yields an Error record; every output
message is the raw message with the rule id appended in parentheses; the
outputs are exactly the non-dropped messages in the original order. -/
theorem normalizeEslint_severity_mapping (codeFrameColumns : CodeFrameFn) (res : LintResult) :
    ((normalizeEslintDiagnostic codeFrameColumns res).map NormalizedDiagnostic.message
      = (res.messages.filter (fun m => m.severity != 0)).map
          (fun m => some (m.message ++ " (" ++ jsStringNullable m.ruleId ++ ")")))
    ∧ (∀ m : LintMessage, m.severity = 0 →
        normalizeEslintMessage codeFrameColumns res.source res.filePath m = none)
    ∧ (∀ m : LintMessage, m.severity = 1 →
        (normalizeEslintMessage codeFrameColumns res.source res.filePath m).map
          NormalizedDiagnostic.level = some (some DiagnosticLevel.Warning))
    ∧ (∀ m : LintMessage, m.severity = 2 →
        (normalizeEslintMessage codeFrameColumns res.source res.filePath m).map
          NormalizedDiagnostic.level = some (some DiagnosticLevel.Error)) := by
  refine ⟨eslintMessages_aux codeFrameColumns res.source res.filePath res.messages, ?_, ?_, ?_⟩
  · intro m hm; simp [normalizeEslintMessage, hm]
  · intro m hm; simp [normalizeEslintMessage, hm]
  · intro m hm; simp [normalizeEslintMessage, hm]

/-- C5 witness: the mapping evaluated on a concrete lint result holding one
message of each severity. -/
theorem normalizeEslint_severity_mapping_witness :
    ((normalizeEslintDiagnostic cfc0 lintResC5).map NormalizedDiagnostic.message
      = (lintResC5.messages.filter (fun m => m.severity != 0)).map
          (fun m => some (m.message ++ " (" ++ jsStringNullable m.ruleId ++ ")")))
    ∧ normalizeEslintMessage cfc0 lintResC5.source lintResC5.filePath lintMsgSev0 = none
    ∧ (normalizeEslintMessage cfc0 lintResC5.source lintResC5.filePath lintMsgSev1).map
        NormalizedDiagnostic.level = some (some DiagnosticLevel.Warning)
    ∧ (normalizeEslintMessage cfc0 lintResC5.source lintResC5.filePath lintMsgSev2).map
        NormalizedDiagnostic.level = some (some DiagnosticLevel.Error) :=
  ⟨(normalizeEslint_severity_mapping cfc0 lintResC5).1,
   (normalizeEslint_severity_mapping cfc0 lintResC5).2.1 lintMsgSev0 rfl,
   (normalizeEslint_severity_mapping cfc0 lintResC5).2.2.1 lintMsgSev1 rfl,
   (normalizeEslint_severity_mapping cfc0 lintResC5).2.2.2 lintMsgSev2 rfl⟩

/-- C6: the protocol normalizer maps severity 1 to Error, 2 to Warning, 3 to
Message, 4 to Suggestion, and assigns Error when the severity is absent or
any other value. -/
theorem normalizeLspDiagnostic_severity_mapping (codeFrameColumns : CodeFrameFn)
    (d : LspDiagnostic) (absFilePath fileText : String) :
    (d.severity = some 1 →
      (normalizeLspDiagnostic codeFrameColumns d absFilePath fileText).level
        = some DiagnosticLevel.Error)
    ∧ (d.severity = some 2 →
      (normalizeLspDiagnostic codeFrameColumns d absFilePath fileText).level
        = some DiagnosticLevel.Warning)
    ∧ (d.severity = some 3 →
      (normalizeLspDiagnostic codeFrameColumns d absFilePath fileText).level
        = some DiagnosticLevel.Message)
    ∧ (d.severity = some 4 →
      (normalizeLspDiagnostic codeFrameColumns d absFilePath fileText).level
        = some DiagnosticLevel.Suggestion)
    ∧ (d.severity = none →
      (normalizeLspDiagnostic codeFrameColumns d absFilePath fileText).level
        = some DiagnosticLevel.Error)
    ∧ (∀ n : Int, d.severity = some n → n ≠ 1 → n ≠ 2 → n ≠ 3 → n ≠ 4 →
      (normalizeLspDiagnostic codeFrameColumns d absFilePath fileText).level
        = some DiagnosticLevel.Error) := by
  refine ⟨?_, ?_, ?_, ?_, ?_, ?_⟩
  · intro h; simp [normalizeLspDiagnostic, h]
  · intro h; simp [normalizeLspDiagnostic, h, DiagnosticLevel.Warning, DiagnosticLevel.Error]
  · intro h; simp [normalizeLspDiagnostic, h]
  · intro h; simp [normalizeLspDiagnostic, h]
  · intro h; simp [normalizeLspDiagnostic, h]
  · intro n h h1 h2 h3 h4; simp [normalizeLspDiagnostic, h, h1, h2, h3, h4]

/-- C6 witness: the mapping evaluated at one concrete protocol diagnostic per
severity case, including an absent and an unrecognized severity. -/
theorem normalizeLspDiagnostic_severity_mapping_witness :
    (normalizeLspDiagnostic cfc0 (lspDiagAt (some 1)) "f" "t").level = some DiagnosticLevel.Error
    ∧ (normalizeLspDiagnostic cfc0 (lspDiagAt (some 2)) "f" "t").level
        = some DiagnosticLevel.Warning
    ∧ (normalizeLspDiagnostic cfc0 (lspDiagAt (some 3)) "f" "t").level
        = some DiagnosticLevel.Message
    ∧ (normalizeLspDiagnostic cfc0 (lspDiagAt (some 4)) "f" "t").level
        = some DiagnosticLevel.Suggestion
    ∧ (normalizeLspDiagnostic cfc0 (lspDiagAt none) "f" "t").level = some DiagnosticLevel.Error
    ∧ (normalizeLspDiagnostic cfc0 (lspDiagAt (some 9)) "f" "t").level
        = some DiagnosticLevel.Error :=
  ⟨(normalizeLspDiagnostic_severity_mapping cfc0 (lspDiagAt (some 1)) "f" "t").1 rfl,
   (normalizeLspDiagnostic_severity_mapping cfc0 (lspDiagAt (some 2)) "f" "t").2.1 rfl,
   (normalizeLspDiagnostic_severity_mapping cfc0 (lspDiagAt (some 3)) "f" "t").2.2.1 rfl,
   (normalizeLspDiagnostic_severity_mapping cfc0 (lspDiagAt (some 4)) "f" "t").2.2.2.1 rfl,
   (normalizeLspDiagnostic_severity_mapping cfc0 (lspDiagAt none) "f" "t").2.2.2.2.1 rfl,
   (normalizeLspDiagnostic_severity_mapping cfc0 (lspDiagAt (some 9)) "f" "t").2.2.2.2.2 9 rfl
     (by decide) (by decide) (by decide) (by decide)⟩

/-- C7: both location conversions add one to every line and character value,
independently on start and end, with no rounding or clamping: the statement
ranges over all integer inputs, zero and negative included. -/
theorem location_conversions_add_one (tsLoc : TsRange) (range : LspRange) :
    (tsLocationToBabelLocation tsLoc).start.line = tsLoc.start.line + 1
    ∧ (tsLocationToBabelLocation tsLoc).start.column = some (tsLoc.start.character + 1)
    ∧ (tsLocationToBabelLocation tsLoc).end_.line = tsLoc.end_.line + 1
    ∧ (tsLocationToBabelLocation tsLoc).end_.column = some (tsLoc.end_.character + 1)
    ∧ (lspRange2Location range).start.line = range.start.line + 1
    ∧ (lspRange2Location range).start.column = some (range.start.character + 1)
    ∧ (lspRange2Location range).end_.line = range.end_.line + 1
    ∧ (lspRange2Location range).end_.column = some (range.end_.character + 1) :=
  ⟨rfl, rfl, rfl, rfl, rfl, rfl, rfl, rfl⟩

/-- C8: the composed summary contains, inside the color wrapping, the message
prefixed with the bracketed checker name and with the plural s appended
exactly when the corresponding count exceeds one; the three singular-plural
boundary examples of the spec are included concretely. -/
theorem composeCheckerSummary_contains_message (checkerName : String)
    (errorCount warningCount : Int) :
    (wrapCheckerSummary checkerName ("Found " ++ toString errorCount ++ " error"
        ++ (if errorCount > 1 then "s" else "") ++ " and " ++ toString warningCount
        ++ " warning" ++ (if warningCount > 1 then "s" else ""))).data
      <:+: (composeCheckerSummary checkerName errorCount warningCount).data
    ∧ ("Found 2 errors and 0 warning").data <:+: (composeCheckerSummary "X" 2 0).data
    ∧ ("Found 1 error and 1 warning").data <:+: (composeCheckerSummary "X" 1 1).data
    ∧ ("Found 0 error and 0 warning").data <:+: (composeCheckerSummary "X" 0 0).data := by
  refine ⟨?_, by decide, by decide, by decide⟩
  exact chalkByName_contains _ _

/-- C9: when endLine is absent and the message is not dropped, the built
location has end line 0 rather than the start line, while the start line and
column are the raw fields unchanged. -/
theorem normalizeEslint_endLine_defaults_zero (codeFrameColumns : CodeFrameFn)
    (source : Option String) (filePath : String) (m : LintMessage)
    (h : m.endLine = none) (hsv : m.severity ≠ 0) :
    (normalizeEslintMessage codeFrameColumns source filePath m).map NormalizedDiagnostic.loc
      = some (some { start := { line := m.line, column := some m.column }
                     end_ := { line := 0, column := m.endColumn } }) := by
  simp [normalizeEslintMessage, hsv, h]

/-- C9 witness: the default evaluated on a concrete lint message whose
endLine is absent. -/
theorem normalizeEslint_endLine_defaults_zero_witness :
    (normalizeEslintMessage cfc0 (some "code") "f.js" lintMsgC9).map NormalizedDiagnostic.loc
      = some (some { start := { line := 3, column := some 5 }
                     end_ := { line := 0, column := some 9 } }) :=
  normalizeEslint_endLine_defaults_zero cfc0 (some "code") "f.js" lintMsgC9 rfl (by decide)

/-- C10: a record whose level is undefined renders without failure and
exactly as the same record classified as Error renders: the Error severity
label is the default for the unclassified record. -/
theorem terminalLog_undefined_level_uses_error (d : NormalizedDiagnostic)
    (name : Option String) (h : d.level = none) :
    diagnosticToTerminalLog d name
      = diagnosticToTerminalLog { d with level := some DiagnosticLevel.Error } name := by
  simp [diagnosticToTerminalLog, h]

/-- C10 witness: the default label evaluated on a concrete unclassified record. -/
theorem terminalLog_undefined_level_uses_error_witness :
    diagnosticToTerminalLog unclassifiedDiagC10 none
      = diagnosticToTerminalLog
          { unclassifiedDiagC10 with level := some DiagnosticLevel.Error } none :=
  terminalLog_undefined_level_uses_error unclassifiedDiagC10 none rfl
